import Mathlib

/-!
Verification of the local-first change-synchronization engine of the
AI-integrated ERP-CRM repository.

The embedding models:
* `SyncQueue` rows (src/src/database/sync_queue.py) as `SyncQueueRec`;
* `SyncService.add_to_queue` (src/src/services/sync_service.py, lines 44-86);
* `SyncService.push_pending_changes` (lines 88-147) together with
  `SyncService._push_item` (lines 149-170);
* `SyncService.get_queue_status` (lines 203-220);
* `SyncManager.sync` / `sync_now` / `get_status`
  (src/src/services/sync_manager.py);
* the capture path `SyncableMixin.after_insert -> add_to_sync_queue ->
  SyncService.add_to_queue` (src/src/database/mixins.py).

The local database table is modeled as a `List SyncQueueRec` kept in rowid
(= `id`) order, which is both the insertion order produced by the
autoincrement primary key and the order an un-ordered SQLite SELECT scan
returns.  Remote (Supabase) behaviour and per-item database-commit
exceptions are oracles passed in as functions.
-/

/-- The `operation` column of a queue row: 'create', 'update' or 'delete'. -/
inductive Operation
  | create
  | update
  | delete
deriving DecidableEq

/-- The `status` column of a queue row: the four values the engine uses
('pending', 'syncing', 'synced', 'failed'). -/
inductive SyncStatus
  | pending
  | syncing
  | synced
  | failed
deriving DecidableEq

/-- A row of the `sync_queue` table (class `SyncQueue`,
src/src/database/sync_queue.py lines 10-28).  Timestamps are `Nat`, the JSON
`data` payload is an opaque `Option String`. -/
structure SyncQueueRec where
  id : Nat
  table_name : String
  record_id : String
  operation : Operation
  data : Option String
  status : SyncStatus
  retry_count : Nat
  error_message : Option String
  created_at : Nat
  synced_at : Option Nat
deriving DecidableEq

/-- The statistics dictionary `{"pushed": _, "failed": _, "skipped": _}`
returned by `push_pending_changes`. -/
structure SyncStats where
  pushed : Nat
  failed : Nat
  skipped : Nat
deriving DecidableEq

/-- Pointwise addition of statistics dictionaries (the loop increments the
counters in place; we accumulate). -/
def addStats (a b : SyncStats) : SyncStats :=
  ⟨a.pushed + b.pushed, a.failed + b.failed, a.skipped + b.skipped⟩

/-- Outcome of one remote (Supabase) call: either `execute()` returns a
result whose `data` list has `n` elements, or it raises. -/
inductive RemoteResult
  | rows (n : Nat)
  | throws (msg : String)

/-- Next autoincrement primary key for the queue table. -/
def nextId (queue : List SyncQueueRec) : Nat :=
  (queue.map (fun r => r.id)).foldr max 0 + 1

/-- The row constructed by `SyncService.add_to_queue`
(sync_service.py lines 69-75): `status="pending"`, default
`retry_count` 0, no `error_message`, no `synced_at`. -/
def mkQueueItem (table_name record_id : String) (operation : Operation)
    (data : Option String) (id now : Nat) : SyncQueueRec :=
  { id := id
    table_name := table_name
    record_id := record_id
    operation := operation
    data := data
    status := SyncStatus.pending
    retry_count := 0
    error_message := none
    created_at := now
    synced_at := none }

/-- `SyncService.add_to_queue` (sync_service.py lines 44-86).  If sync is
disabled it returns without touching the queue; otherwise it opens its own
session (line 67), appends one pending row and commits it (line 77),
independently of any other transaction. -/
def add_to_queue (enabled : Bool) (table_name record_id : String)
    (operation : Operation) (data : Option String) (now : Nat)
    (queue : List SyncQueueRec) : List SyncQueueRec :=
  if enabled then
    queue ++ [mkQueueItem table_name record_id operation data (nextId queue) now]
  else
    queue

/-- `SyncService._push_item` (sync_service.py lines 149-170).  Any exception
raised by the remote call is caught inside this function, logged, and
converted to `False`; `create`/`update` succeed iff the returned `data`
list is non-empty, `delete` always succeeds. -/
def pushItem (remote : SyncQueueRec → RemoteResult) (item : SyncQueueRec) :
    Bool :=
  match remote item with
  | RemoteResult.throws _ => false
  | RemoteResult.rows n =>
    match item.operation with
    | Operation.create => decide (0 < n)
    | Operation.update => decide (0 < n)
    | Operation.delete => true

/-- One iteration of the loop body of `push_pending_changes`
(sync_service.py lines 110-139) acting on the selected item.  `dbExc` is the
oracle for a database exception raised inside the try block (the
except branch, lines 132-139: rollback, then `status="failed"`,
`retry_count += 1`, `error_message = str(e)`, commit).  With no exception,
success (lines 119-123) sets `status="synced"` and `synced_at=now`;
reported failure (lines 124-128) sets `status="failed"` and
`retry_count += 1`.  Neither non-exception branch writes `error_message`. -/
def processItem (remote : SyncQueueRec → RemoteResult)
    (dbExc : SyncQueueRec → Option String) (now : Nat)
    (item : SyncQueueRec) : SyncQueueRec :=
  match dbExc item with
  | some msg =>
    { item with
        status := SyncStatus.failed
        retry_count := item.retry_count + 1
        error_message := some msg }
  | none =>
    if pushItem remote item then
      { item with status := SyncStatus.synced, synced_at := some now }
    else
      { item with
          status := SyncStatus.failed
          retry_count := item.retry_count + 1 }

/-- The statistics increment produced by one loop iteration of
`push_pending_changes` for the selected item (`stats["pushed"] += 1` on
line 122, `stats["failed"] += 1` on lines 127 and 137; nothing ever
increments `stats["skipped"]`). -/
def itemStats (remote : SyncQueueRec → RemoteResult)
    (dbExc : SyncQueueRec → Option String) (item : SyncQueueRec) :
    SyncStats :=
  match dbExc item with
  | some _ => ⟨0, 1, 0⟩
  | none => if pushItem remote item then ⟨1, 0, 0⟩ else ⟨0, 1, 0⟩

/-- The query of `push_pending_changes` (sync_service.py lines 106-108):
`db.query(SyncQueue).filter(SyncQueue.status == "pending").limit(limit)`,
taken over the table in its scan (= `id`) order. -/
def selectPending (limit : Nat) (rows : List SyncQueueRec) :
    List SyncQueueRec :=
  (rows.filter (fun r => decide (r.status = SyncStatus.pending))).take limit

/-- The selection-and-update loop of `push_pending_changes`
(sync_service.py lines 104-141), fused over the table: the first `limit`
rows with `status = "pending"` (exactly the rows the query on lines 106-108
selects, since the query runs before the loop and the loop touches only the
selected rows) are each processed by `processItem` and their outcome
committed independently; every other row is left unchanged. -/
def runBatchLoop (remote : SyncQueueRec → RemoteResult)
    (dbExc : SyncQueueRec → Option String) (now : Nat) :
    Nat → List SyncQueueRec → List SyncQueueRec × SyncStats
  | _, [] => ([], ⟨0, 0, 0⟩)
  | limit, item :: rest =>
    if item.status = SyncStatus.pending then
      match limit with
      | 0 =>
        let out := runBatchLoop remote dbExc now 0 rest
        (item :: out.1, out.2)
      | k + 1 =>
        let out := runBatchLoop remote dbExc now k rest
        (processItem remote dbExc now item :: out.1,
          addStats (itemStats remote dbExc item) out.2)
    else
      let out := runBatchLoop remote dbExc now limit rest
      (item :: out.1, out.2)

/-- `SyncService.push_pending_changes` (sync_service.py lines 88-147):
returns the updated table and the statistics; when sync is disabled it
returns `{"pushed": 0, "failed": 0, "skipped": 0}` at once (lines 98-99). -/
def push_pending_changes (enabled : Bool)
    (remote : SyncQueueRec → RemoteResult)
    (dbExc : SyncQueueRec → Option String) (now limit : Nat)
    (rows : List SyncQueueRec) : List SyncQueueRec × SyncStats :=
  if enabled then runBatchLoop remote dbExc now limit rows
  else (rows, ⟨0, 0, 0⟩)

/-- Number of rows with the given status
(`db.query(SyncQueue).filter(SyncQueue.status == s).count()`). -/
def countStatus (s : SyncStatus) (rows : List SyncQueueRec) : Nat :=
  rows.countP (fun r => decide (r.status = s))

/-- The dictionary returned by `SyncService.get_queue_status`
(sync_service.py lines 203-220). -/
structure QueueStatus where
  pending : Nat
  syncing : Nat
  failed : Nat
  synced : Nat
  total : Nat
deriving DecidableEq

/-- `SyncService.get_queue_status` (sync_service.py lines 203-220): the four
per-status counts, and `total` computed as their sum (line 217). -/
def get_queue_status (rows : List SyncQueueRec) : QueueStatus :=
  let p := countStatus SyncStatus.pending rows
  let sy := countStatus SyncStatus.syncing rows
  let f := countStatus SyncStatus.failed rows
  let s := countStatus SyncStatus.synced rows
  ⟨p, sy, f, s, p + sy + f + s⟩

/-- The dictionary returned by `SyncManager.get_status`
(sync_manager.py lines 74-82): when the service is disabled it is exactly
the one-key dictionary containing only the enabled flag (line 77); when
enabled it is the queue status together with the enabled flag and the
in-progress flag (lines 79-82). -/
inductive StatusReport
  | disabledOnly
  | full (qs : QueueStatus) (is_syncing : Bool)
deriving DecidableEq

/-- `SyncManager.get_status` (sync_manager.py lines 74-82). -/
def get_status (enabled is_syncing : Bool) (rows : List SyncQueueRec) :
    StatusReport :=
  if enabled then StatusReport.full (get_queue_status rows) is_syncing
  else StatusReport.disabledOnly

/-- Whether `SyncManager.sync` (sync_manager.py lines 37-68) reaches the
call to `push_pending_changes`: it returns early when the service is
disabled (lines 44-45) or when `is_syncing` is set and `force` is not
(lines 47-49). -/
def sync_runs (enabled is_syncing force : Bool) : Bool :=
  if !enabled then false
  else if is_syncing && !force then false
  else true

/-- `SyncManager.sync_now` (sync_manager.py lines 70-72) calls
`self.sync(force=True)`. -/
def sync_now_runs (enabled is_syncing : Bool) : Bool :=
  sync_runs enabled is_syncing true

/-- A domain-table row (the entity a domain service mutates). -/
structure DomainRow where
  id : Nat
  payload : String
deriving DecidableEq

/-- The local database: the domain table of the mutated entity and the
`sync_queue` table. -/
structure DbState where
  domain : List DomainRow
  queue : List SyncQueueRec
deriving DecidableEq

/-- The capture path for an insert (src/src/database/mixins.py lines 33-45):
during the domain transaction's flush the `after_insert` hook calls
`add_to_sync_queue`, which calls `SyncService.add_to_queue`; that method
opens its own session (`SessionLocal()`, sync_service.py line 67) and
commits the ChangeRecord immediately (line 77), independently of the domain
transaction.  Afterwards the domain transaction itself either commits
(`domainCommitOk = true`) or rolls back — the already-committed queue row
is unaffected either way. -/
def domain_insert_with_capture (enabled : Bool) (row : DomainRow)
    (table_name : String) (now : Nat) (domainCommitOk : Bool)
    (st : DbState) : DbState :=
  let queue1 := add_to_queue enabled table_name (toString row.id)
    Operation.create (some row.payload) now st.queue
  if domainCommitOk then { domain := st.domain ++ [row], queue := queue1 }
  else { domain := st.domain, queue := queue1 }

/-- Modelled from the spec: the status state machine the spec prescribes
(`pending → syncing → {synced | failed}`), used to compare the code's
transitions against it. -/
def statusEdge : SyncStatus → SyncStatus → Bool
  | SyncStatus.pending, SyncStatus.syncing => true
  | SyncStatus.syncing, SyncStatus.synced => true
  | SyncStatus.syncing, SyncStatus.failed => true
  | _, _ => false

/-- Number of pending rows among the first `i` rows of the table: how much
of the selection budget the loop has consumed before reaching row `i`. -/
def pendingBefore (rows : List SyncQueueRec) (i : Nat) : Nat :=
  (rows.take i).countP (fun r => decide (r.status = SyncStatus.pending))

/-- Concrete queue row for evaluating the engine on specific inputs. -/
def sampleRow (id : Nat) (st : SyncStatus) (err : Option String) :
    SyncQueueRec :=
  { id := id
    table_name := "contacts"
    record_id := toString id
    operation := Operation.create
    data := some "payload"
    status := st
    retry_count := 0
    error_message := err
    created_at := 0
    synced_at := none }

/-- Remote stub that always succeeds with one result row. -/
def remoteOk : SyncQueueRec → RemoteResult := fun _ => RemoteResult.rows 1

/-- Remote stub that reports failure (empty result data). -/
def remoteReject : SyncQueueRec → RemoteResult := fun _ => RemoteResult.rows 0

/-- Remote stub that raises on every call. -/
def remoteTimeout : SyncQueueRec → RemoteResult :=
  fun _ => RemoteResult.throws "timeout"

/-- Database oracle raising no exception. -/
def noDbExc : SyncQueueRec → Option String := fun _ => none

/-- A three-row table in ascending id order with mixed statuses. -/
def sampleRows : List SyncQueueRec :=
  [sampleRow 1 SyncStatus.pending none, sampleRow 2 SyncStatus.synced none,
    sampleRow 3 SyncStatus.pending none]

theorem pendingBefore_zero (rows : List SyncQueueRec) :
    pendingBefore rows 0 = 0 := by
  simp [pendingBefore]

theorem pendingBefore_cons_succ (item : SyncQueueRec)
    (rest : List SyncQueueRec) (j : Nat) :
    pendingBefore (item :: rest) (j + 1) =
      pendingBefore rest j +
        (if item.status = SyncStatus.pending then 1 else 0) := by
  simp [pendingBefore, List.take_succ_cons, List.countP_cons]

theorem runBatchLoop_length (remote : SyncQueueRec → RemoteResult)
    (dbExc : SyncQueueRec → Option String) (now : Nat) :
    ∀ (limit : Nat) (rows : List SyncQueueRec),
    (runBatchLoop remote dbExc now limit rows).1.length = rows.length := by
  intro limit rows
  induction rows generalizing limit with
  | nil => simp [runBatchLoop]
  | cons item rest ih =>
    by_cases hp : item.status = SyncStatus.pending
    · cases limit with
      | zero => simp [runBatchLoop, hp, ih]
      | succ k => simp [runBatchLoop, hp, ih]
    · simp [runBatchLoop, hp, ih]

theorem runBatchLoop_getElem (remote : SyncQueueRec → RemoteResult)
    (dbExc : SyncQueueRec → Option String) (now : Nat) :
    ∀ (limit : Nat) (rows : List SyncQueueRec) (i : Nat),
    (runBatchLoop remote dbExc now limit rows).1[i]? =
      (rows[i]?).map (fun r =>
        if r.status = SyncStatus.pending ∧ pendingBefore rows i < limit
        then processItem remote dbExc now r else r) := by
  intro limit rows
  induction rows generalizing limit with
  | nil => intro i; simp [runBatchLoop]
  | cons item rest ih =>
    intro i
    by_cases hp : item.status = SyncStatus.pending
    · cases limit with
      | zero =>
        cases i with
        | zero => simp [runBatchLoop, hp, pendingBefore_zero]
        | succ j =>
          simp only [runBatchLoop, if_pos hp, List.getElem?_cons_succ]
          rw [ih 0 j]
          cases hr : rest[j]? with
          | none => simp
          | some r => simp
      | succ k =>
        cases i with
        | zero => simp [runBatchLoop, hp, pendingBefore_zero]
        | succ j =>
          simp only [runBatchLoop, if_pos hp, List.getElem?_cons_succ]
          rw [ih k j]
          cases hr : rest[j]? with
          | none => simp
          | some r =>
            simp only [Option.map_some']
            rw [pendingBefore_cons_succ, if_pos hp]
            simp [Nat.add_lt_add_iff_right]
    · cases i with
      | zero => simp [runBatchLoop, hp, pendingBefore_zero]
      | succ j =>
        simp only [runBatchLoop, if_neg hp, List.getElem?_cons_succ]
        rw [ih limit j]
        cases hr : rest[j]? with
        | none => simp
        | some r =>
          simp only [Option.map_some']
          rw [pendingBefore_cons_succ, if_neg hp]
          simp

theorem itemStats_skipped (remote : SyncQueueRec → RemoteResult)
    (dbExc : SyncQueueRec → Option String) (item : SyncQueueRec) :
    (itemStats remote dbExc item).skipped = 0 := by
  unfold itemStats
  cases dbExc item with
  | none => by_cases h : pushItem remote item <;> simp [h]
  | some msg => rfl

theorem runBatchLoop_skipped (remote : SyncQueueRec → RemoteResult)
    (dbExc : SyncQueueRec → Option String) (now : Nat) :
    ∀ (limit : Nat) (rows : List SyncQueueRec),
    (runBatchLoop remote dbExc now limit rows).2.skipped = 0 := by
  intro limit rows
  induction rows generalizing limit with
  | nil => simp [runBatchLoop]
  | cons item rest ih =>
    by_cases hp : item.status = SyncStatus.pending
    · cases limit with
      | zero => simp [runBatchLoop, hp, ih]
      | succ k =>
        simp [runBatchLoop, hp, addStats, itemStats_skipped, ih]
    · simp [runBatchLoop, hp, ih]

theorem runBatchLoop_no_pending (remote : SyncQueueRec → RemoteResult)
    (dbExc : SyncQueueRec → Option String) (now : Nat) :
    ∀ (limit : Nat) (rows : List SyncQueueRec),
    (∀ r ∈ rows, r.status ≠ SyncStatus.pending) →
    runBatchLoop remote dbExc now limit rows = (rows, ⟨0, 0, 0⟩) := by
  intro limit rows
  induction rows generalizing limit with
  | nil => intro _; simp [runBatchLoop]
  | cons item rest ih =>
    intro h
    have hp : ¬item.status = SyncStatus.pending :=
      h item (List.mem_cons_self item rest)
    have hrest : ∀ r ∈ rest, r.status ≠ SyncStatus.pending :=
      fun r hr => h r (List.mem_cons_of_mem item hr)
    simp [runBatchLoop, hp, ih limit hrest]

theorem selectPending_status (limit : Nat) (rows : List SyncQueueRec) :
    ∀ r ∈ selectPending limit rows, r.status = SyncStatus.pending := by
  intro r hr
  have hf := List.mem_of_mem_take hr
  have hd := List.of_mem_filter hf
  exact of_decide_eq_true hd

theorem selectPending_length (limit : Nat) (rows : List SyncQueueRec) :
    (selectPending limit rows).length ≤ limit := by
  simp [selectPending]

theorem selectPending_sorted (limit : Nat) (rows : List SyncQueueRec)
    (hsorted : rows.Pairwise (fun a b => a.id < b.id)) :
    (selectPending limit rows).Pairwise (fun a b => a.id < b.id) := by
  have h1 :
      (rows.filter
        (fun r => decide (r.status = SyncStatus.pending))).Pairwise
        (fun a b => a.id < b.id) :=
    hsorted.filter _
  exact List.Pairwise.sublist (List.take_sublist limit _) h1

theorem sorted_take_closed_below {l : List SyncQueueRec} {n : Nat}
    {r s : SyncQueueRec}
    (hsort : l.Pairwise (fun a b => a.id < b.id))
    (hr : r ∈ l) (hs : s ∈ l.take n) (hlt : r.id < s.id) :
    r ∈ l.take n := by
  induction l generalizing n with
  | nil => simp at hr
  | cons a t ih =>
    cases n with
    | zero => simp at hs
    | succ m =>
      rw [List.take_succ_cons] at hs ⊢
      have hpair := List.pairwise_cons.mp hsort
      rcases List.mem_cons.mp hs with hsa | hst
      · rcases List.mem_cons.mp hr with hra | hrt
        · exact absurd hlt (by rw [hra, hsa]; exact lt_irrefl _)
        · have h1 : a.id < r.id := hpair.1 r hrt
          rw [hsa] at hlt
          omega
      · rcases List.mem_cons.mp hr with hra | hrt
        · rw [hra]; exact List.mem_cons_self a _
        · exact List.mem_cons_of_mem a (ih hpair.2 hrt hst)

theorem countStatus_partition (rows : List SyncQueueRec) :
    countStatus SyncStatus.pending rows + countStatus SyncStatus.syncing rows +
      countStatus SyncStatus.failed rows +
      countStatus SyncStatus.synced rows = rows.length := by
  induction rows with
  | nil => rfl
  | cons r t ih =>
    cases hr : r.status <;>
      simp [countStatus, List.countP_cons, hr] at ih ⊢ <;> omega

/-- C1: the capture is not atomic with the domain mutation.  With sync
enabled, a domain insert whose transaction rolls back after the
after_insert hook fired still leaves the ChangeRecord in the queue, because
add_to_queue commits it in its own independent session: the domain row is
absent while the queue row exists, contradicting "if either write fails,
both ... are absent". -/
theorem C1_capture_not_atomic :
    (domain_insert_with_capture true ⟨7, "Alice"⟩ "contacts" 0 false
      ⟨[], []⟩).domain = [] ∧
    (domain_insert_with_capture true ⟨7, "Alice"⟩ "contacts" 0 false
      ⟨[], []⟩).queue =
      [mkQueueItem "contacts" "7" Operation.create (some "Alice") 1 0] := by
  exact ⟨rfl, rfl⟩

/-- C2: counterexample — a manual trigger (sync_now) that arrives while a
sync is already running is not dropped: with the service enabled and
is_syncing set, sync_now still reaches push_pending_changes, because it
calls sync with force=True, which bypasses the in-progress guard. -/
theorem C2_counterexample : ¬ sync_now_runs true true = false := by
  decide

/-- C2 (amended): a non-forced trigger (the periodic tick) arriving while a
sync is running is dropped, and nothing runs while the service is disabled;
but a manual trigger passes force=True and bypasses the in-progress guard,
so it does start a batch even while one is already running. -/
theorem C2_guard_only_for_unforced :
    sync_runs true true false = false ∧
    sync_now_runs true true = true ∧
    (∀ s f : Bool, sync_runs false s f = false) := by
  refine ⟨rfl, rfl, ?_⟩
  intro s f
  rfl

/-- C3: over the id-ordered table, the batch query selects at most limit
records, all pending, in ascending id order, and never skips a pending
record with a smaller id in favor of a selected one with a larger id. -/
theorem C3_selection_ordered (limit : Nat) (rows : List SyncQueueRec)
    (hsorted : rows.Pairwise (fun a b => a.id < b.id)) :
    (selectPending limit rows).length ≤ limit ∧
    (∀ r ∈ selectPending limit rows, r.status = SyncStatus.pending) ∧
    (selectPending limit rows).Pairwise (fun a b => a.id < b.id) ∧
    (∀ r ∈ rows, r.status = SyncStatus.pending →
      ∀ s ∈ selectPending limit rows, r.id < s.id →
        r ∈ selectPending limit rows) := by
  refine ⟨selectPending_length limit rows, selectPending_status limit rows,
    selectPending_sorted limit rows hsorted, ?_⟩
  intro r hr hpend s hs hlt
  have hsortf :
      (rows.filter
        (fun r => decide (r.status = SyncStatus.pending))).Pairwise
        (fun a b => a.id < b.id) :=
    hsorted.filter _
  have hrf :
      r ∈ rows.filter (fun r => decide (r.status = SyncStatus.pending)) :=
    List.mem_filter.mpr ⟨hr, by simp [hpend]⟩
  exact sorted_take_closed_below hsortf hrf hs hlt

/-- Witness for C3 at a concrete three-row table with limit 1. -/
theorem C3_selection_ordered_witness :
    sampleRows.Pairwise (fun a b => a.id < b.id) ∧
    ((selectPending 1 sampleRows).length ≤ 1 ∧
      (∀ r ∈ selectPending 1 sampleRows, r.status = SyncStatus.pending) ∧
      (selectPending 1 sampleRows).Pairwise (fun a b => a.id < b.id) ∧
      (∀ r ∈ sampleRows, r.status = SyncStatus.pending →
        ∀ s ∈ selectPending 1 sampleRows, r.id < s.id →
          r ∈ selectPending 1 sampleRows)) :=
  ⟨by decide, C3_selection_ordered 1 sampleRows (by decide)⟩

/-- C4: counterexample — a record whose remote push succeeds does not get
its error_message cleared: a pending record carrying a stale failure reason
becomes synced while the old message is still stored, contradicting
"error_message = null (any previous failure reason is cleared)". -/
theorem C4_counterexample :
    (processItem remoteOk noDbExc 5
      (sampleRow 1 SyncStatus.pending (some "boom"))).status =
        SyncStatus.synced ∧
    (processItem remoteOk noDbExc 5
      (sampleRow 1 SyncStatus.pending (some "boom"))).error_message =
        some "boom" ∧
    ¬ (processItem remoteOk noDbExc 5
      (sampleRow 1 SyncStatus.pending (some "boom"))).error_message =
        none := by
  refine ⟨rfl, rfl, ?_⟩
  intro h
  simp [processItem, pushItem, remoteOk, noDbExc, sampleRow] at h

/-- C4 (amended): for every record whose remote push succeeds with no
database exception, the post-state sets status to synced and synced_at to
now and the statistics count it as pushed; every other field, including
error_message, is left unchanged (a previous failure reason is not
cleared). -/
theorem C4_success_post (remote : SyncQueueRec → RemoteResult)
    (dbExc : SyncQueueRec → Option String) (now : Nat)
    (item : SyncQueueRec) (hdb : dbExc item = none)
    (hok : pushItem remote item = true) :
    processItem remote dbExc now item =
      { item with status := SyncStatus.synced, synced_at := some now } ∧
    itemStats remote dbExc item = ⟨1, 0, 0⟩ := by
  unfold processItem itemStats
  rw [hdb, hok]
  exact ⟨rfl, rfl⟩

/-- Witness for C4 at a concrete record with a stale error message and a
remote stub that succeeds. -/
theorem C4_success_post_witness :
    noDbExc (sampleRow 1 SyncStatus.pending (some "boom")) = none ∧
    pushItem remoteOk (sampleRow 1 SyncStatus.pending (some "boom")) =
      true ∧
    (processItem remoteOk noDbExc 5
        (sampleRow 1 SyncStatus.pending (some "boom")) =
      { sampleRow 1 SyncStatus.pending (some "boom") with
          status := SyncStatus.synced, synced_at := some 5 } ∧
    itemStats remoteOk noDbExc
        (sampleRow 1 SyncStatus.pending (some "boom")) = ⟨1, 0, 0⟩) :=
  ⟨rfl, rfl,
    C4_success_post remoteOk noDbExc 5
      (sampleRow 1 SyncStatus.pending (some "boom")) rfl rfl⟩

/-- C5: counterexample — when the remote reports failure (empty result
data), and likewise when the remote raises (the exception is caught inside
_push_item and converted to a reported failure), the record ends failed
with error_message still unset, contradicting "error_message set to the
failure reason". -/
theorem C5_counterexample :
    (processItem remoteReject noDbExc 5
      (sampleRow 1 SyncStatus.pending none)).status = SyncStatus.failed ∧
    (processItem remoteReject noDbExc 5
      (sampleRow 1 SyncStatus.pending none)).error_message = none ∧
    (processItem remoteTimeout noDbExc 5
      (sampleRow 1 SyncStatus.pending none)).status = SyncStatus.failed ∧
    (processItem remoteTimeout noDbExc 5
      (sampleRow 1 SyncStatus.pending none)).error_message = none := by
  exact ⟨rfl, rfl, rfl, rfl⟩

/-- C5 (amended): a failed push always sets status to failed, increments
retry_count by exactly one and counts as failed in the statistics; but
error_message is written only by the database-exception branch (which
stores the exception text) — a remote reported failure, or a remote
exception caught inside _push_item, leaves error_message unchanged. -/
theorem C5_failure_post (remote : SyncQueueRec → RemoteResult)
    (dbExc : SyncQueueRec → Option String) (now : Nat)
    (item : SyncQueueRec) :
    (dbExc item = none → pushItem remote item = false →
      processItem remote dbExc now item =
        { item with
            status := SyncStatus.failed
            retry_count := item.retry_count + 1 } ∧
      itemStats remote dbExc item = ⟨0, 1, 0⟩) ∧
    (∀ msg, dbExc item = some msg →
      processItem remote dbExc now item =
        { item with
            status := SyncStatus.failed
            retry_count := item.retry_count + 1
            error_message := some msg } ∧
      itemStats remote dbExc item = ⟨0, 1, 0⟩) := by
  constructor
  · intro hdb hfail
    unfold processItem itemStats
    rw [hdb, hfail]
    exact ⟨rfl, rfl⟩
  · intro msg hdb
    unfold processItem itemStats
    rw [hdb]
    exact ⟨rfl, rfl⟩

/-- Witness for C5 at a concrete pending record and a remote stub that
reports failure. -/
theorem C5_failure_post_witness :
    noDbExc (sampleRow 1 SyncStatus.pending none) = none ∧
    pushItem remoteReject (sampleRow 1 SyncStatus.pending none) = false ∧
    (processItem remoteReject noDbExc 5
        (sampleRow 1 SyncStatus.pending none) =
      { sampleRow 1 SyncStatus.pending none with
          status := SyncStatus.failed
          retry_count := (sampleRow 1 SyncStatus.pending none).retry_count
            + 1 } ∧
    itemStats remoteReject noDbExc (sampleRow 1 SyncStatus.pending none) =
      ⟨0, 1, 0⟩) :=
  ⟨rfl, rfl,
    (C5_failure_post remoteReject noDbExc 5
      (sampleRow 1 SyncStatus.pending none)).1 rfl rfl⟩

/-- C6: failure isolation within a batch — the batch output has one row per
input row, and the post-state at every position is a function of that row
alone: it is processItem of the row when the row is pending and within the
selection budget, and the unchanged row otherwise, whatever the remote or
database outcome (success, reported failure, or exception) at every other
row; so a failure on one record never prevents a later selected record from
being attempted. -/
theorem C6_failure_isolation (remote : SyncQueueRec → RemoteResult)
    (dbExc : SyncQueueRec → Option String) (now limit : Nat)
    (rows : List SyncQueueRec) :
    (runBatchLoop remote dbExc now limit rows).1.length = rows.length ∧
    ∀ i : Nat,
      (runBatchLoop remote dbExc now limit rows).1[i]? =
        (rows[i]?).map (fun r =>
          if r.status = SyncStatus.pending ∧ pendingBefore rows i < limit
          then processItem remote dbExc now r else r) :=
  ⟨runBatchLoop_length remote dbExc now limit rows,
    fun i => runBatchLoop_getElem remote dbExc now limit rows i⟩

/-- C7: status lifecycle — every ChangeRecord is created with status
pending; a batch changes a record only along the spec's state machine,
taking a pending record through syncing to synced or failed; a record that
is already synced or failed is left untouched by a batch and is never
re-selected (the selection contains only pending records); and enqueueing
never alters existing records. -/
theorem C7_lifecycle :
    (∀ tbl rid op d i now,
      (mkQueueItem tbl rid op d i now).status = SyncStatus.pending) ∧
    (∀ (remote : SyncQueueRec → RemoteResult)
        (dbExc : SyncQueueRec → Option String) (now limit : Nat)
        (rows : List SyncQueueRec) (i : Nat) (r r' : SyncQueueRec),
      rows[i]? = some r →
      (runBatchLoop remote dbExc now limit rows).1[i]? = some r' →
      r' = r ∨
        (r.status = SyncStatus.pending ∧
          statusEdge r.status SyncStatus.syncing = true ∧
          statusEdge SyncStatus.syncing r'.status = true)) ∧
    (∀ (remote : SyncQueueRec → RemoteResult)
        (dbExc : SyncQueueRec → Option String) (now limit : Nat)
        (rows : List SyncQueueRec) (i : Nat) (r : SyncQueueRec),
      rows[i]? = some r →
      (r.status = SyncStatus.synced ∨ r.status = SyncStatus.failed) →
      (runBatchLoop remote dbExc now limit rows).1[i]? = some r) ∧
    (∀ (limit : Nat) (rows : List SyncQueueRec),
      ∀ r ∈ selectPending limit rows, r.status = SyncStatus.pending) ∧
    (∀ (enabled : Bool) (tbl rid : String) (op : Operation)
        (d : Option String) (now : Nat) (queue : List SyncQueueRec),
      ∀ r ∈ queue,
      r ∈ add_to_queue enabled tbl rid op d now queue) := by
  refine ⟨?_, ?_, ?_, ?_, ?_⟩
  · intro tbl rid op d i now
    rfl
  · intro remote dbExc now limit rows i r r' h1 h2
    have h3 : (if r.status = SyncStatus.pending ∧
          pendingBefore rows i < limit
        then processItem remote dbExc now r else r) = r' := by
      rw [runBatchLoop_getElem remote dbExc now limit rows i, h1] at h2
      exact Option.some.inj h2
    by_cases hc : r.status = SyncStatus.pending ∧
        pendingBefore rows i < limit
    · rw [if_pos hc] at h3
      subst h3
      right
      refine ⟨hc.1, by rw [hc.1]; rfl, ?_⟩
      unfold processItem
      cases hdb : dbExc r with
      | some msg => rfl
      | none =>
        by_cases hpush : pushItem remote r = true
        · rw [hpush]
          rfl
        · rw [Bool.not_eq_true] at hpush
          rw [hpush]
          rfl
    · rw [if_neg hc] at h3
      subst h3
      left
      rfl
  · intro remote dbExc now limit rows i r h1 hterm
    rw [runBatchLoop_getElem remote dbExc now limit rows i, h1]
    have hc : ¬ (r.status = SyncStatus.pending ∧
        pendingBefore rows i < limit) := by
      rcases hterm with h | h <;> simp [h]
    rw [Option.map_some', if_neg hc]
  · intro limit rows
    exact selectPending_status limit rows
  · intro enabled tbl rid op d now queue r hr
    unfold add_to_queue
    cases enabled with
    | false => simpa using hr
    | true => simp [List.mem_append, hr]

/-- Witness for C7: a single pending record is taken by the batch from
pending through syncing to a terminal status along the state machine. -/
theorem C7_lifecycle_witness :
    ([sampleRow 1 SyncStatus.pending none] :
        List SyncQueueRec)[0]? = some (sampleRow 1 SyncStatus.pending none) ∧
    (runBatchLoop remoteOk noDbExc 5 1
        [sampleRow 1 SyncStatus.pending none]).1[0]? =
      some (processItem remoteOk noDbExc 5
        (sampleRow 1 SyncStatus.pending none)) ∧
    (processItem remoteOk noDbExc 5 (sampleRow 1 SyncStatus.pending none) =
        sampleRow 1 SyncStatus.pending none ∨
      ((sampleRow 1 SyncStatus.pending none).status = SyncStatus.pending ∧
        statusEdge (sampleRow 1 SyncStatus.pending none).status
          SyncStatus.syncing = true ∧
        statusEdge SyncStatus.syncing
          (processItem remoteOk noDbExc 5
            (sampleRow 1 SyncStatus.pending none)).status = true)) :=
  ⟨rfl, rfl,
    C7_lifecycle.2.1 remoteOk noDbExc 5 1
      [sampleRow 1 SyncStatus.pending none] 0
      (sampleRow 1 SyncStatus.pending none)
      (processItem remoteOk noDbExc 5 (sampleRow 1 SyncStatus.pending none))
      rfl rfl⟩

/-- C8: a batch over a queue containing no pending records leaves every
row unchanged and returns all-zero statistics (pushed 0, failed 0,
skipped 0), whether the service is enabled or disabled; hence a second
batch right after one that synced everything reports all zeros. -/
theorem C8_no_pending_batch_is_noop (enabled : Bool)
    (remote : SyncQueueRec → RemoteResult)
    (dbExc : SyncQueueRec → Option String) (now limit : Nat)
    (rows : List SyncQueueRec)
    (h : ∀ r ∈ rows, r.status ≠ SyncStatus.pending) :
    push_pending_changes enabled remote dbExc now limit rows =
      (rows, ⟨0, 0, 0⟩) := by
  unfold push_pending_changes
  cases enabled with
  | false => simp
  | true => simpa using runBatchLoop_no_pending remote dbExc now limit rows h

/-- Witness for C8 at a concrete fully-terminal (synced and failed) queue. -/
theorem C8_no_pending_batch_is_noop_witness :
    (∀ r ∈ [sampleRow 1 SyncStatus.synced none,
        sampleRow 2 SyncStatus.failed (some "e")],
      r.status ≠ SyncStatus.pending) ∧
    push_pending_changes true remoteOk noDbExc 5 100
        [sampleRow 1 SyncStatus.synced none,
          sampleRow 2 SyncStatus.failed (some "e")] =
      ([sampleRow 1 SyncStatus.synced none,
          sampleRow 2 SyncStatus.failed (some "e")], ⟨0, 0, 0⟩) :=
  ⟨by decide,
    C8_no_pending_batch_is_noop true remoteOk noDbExc 5 100
      [sampleRow 1 SyncStatus.synced none,
        sampleRow 2 SyncStatus.failed (some "e")] (by decide)⟩

/-- C9: counterexample — when the service is disabled, get_status returns
the one-key dictionary containing only the enabled flag: no call with a
disabled service returns the four status counts, so the claim that every
call returns them fails. -/
theorem C9_counterexample :
    ¬ ∃ (qs : QueueStatus) (b : Bool),
      get_status false false [] = StatusReport.full qs b := by
  intro h
  obtain ⟨qs, b, h⟩ := h
  exact StatusReport.noConfusion h

/-- C9 (amended): when the service is enabled, get_status returns the
enabled flag, the in-progress flag and the four per-status counts; the
counts equal the row counts per status in the queue table, sum exactly to
the reported total, and that total equals the number of rows; when the
service is disabled, get_status returns only the enabled flag and no
counts. -/
theorem C9_status_counts (is_syncing : Bool) (rows : List SyncQueueRec) :
    get_status true is_syncing rows =
      StatusReport.full
        ⟨countStatus SyncStatus.pending rows,
          countStatus SyncStatus.syncing rows,
          countStatus SyncStatus.failed rows,
          countStatus SyncStatus.synced rows,
          countStatus SyncStatus.pending rows +
            countStatus SyncStatus.syncing rows +
            countStatus SyncStatus.failed rows +
            countStatus SyncStatus.synced rows⟩
        is_syncing ∧
    (get_queue_status rows).total =
      (get_queue_status rows).pending + (get_queue_status rows).syncing +
        (get_queue_status rows).failed + (get_queue_status rows).synced ∧
    (get_queue_status rows).total = rows.length ∧
    get_status false is_syncing rows = StatusReport.disabledOnly := by
  refine ⟨rfl, rfl, ?_, rfl⟩
  simpa [get_queue_status] using countStatus_partition rows

/-- C10: the skipped field of the statistics returned by
push_pending_changes is zero for every limit, queue state, remote
behaviour and database behaviour, enabled or not: no code path increments
it. -/
theorem C10_skipped_always_zero (enabled : Bool)
    (remote : SyncQueueRec → RemoteResult)
    (dbExc : SyncQueueRec → Option String) (now limit : Nat)
    (rows : List SyncQueueRec) :
    (push_pending_changes enabled remote dbExc now limit rows).2.skipped =
      0 := by
  unfold push_pending_changes
  cases enabled with
  | false => rfl
  | true => simpa using runBatchLoop_skipped remote dbExc now limit rows
